import Mathlib

/-
  Verification of the notification-service delivery pipeline.

  Shallow embedding of the Go sources:
    internal/webpush/sender.go   (Sender.SendNotification, Sender.buildPayload)
    internal/queue/worker.go     (Worker.handleDeliverNotification, Worker.recordAttempt)
    internal/queue/tasks.go      (Client.EnqueueDeliverNotification queue selection)
    internal/http/dto.go         (request validation)
    internal/auth (VerifyHMACMiddleware, Sign, Verify)
    internal/repo/queries/*.sql and db/migrations (row shapes and defaults)
-/

namespace NotifService

/-- Embedding of the repo DeviceSubscription row (db/migrations, sqlc model).
Only the fields the delivery pipeline reads are kept. -/
structure DeviceSubscription where
  id : String
  userId : String
  endpoint : String
  p256dh : String
  auth : String
  isActive : Bool
deriving Repr, DecidableEq

/-- Embedding of the repo Notification row. The jsonb `data` column is
modelled as an optional association list of string pairs: `some kvs` stands
for bytes of positive length that json.Unmarshal parses into the object with
entries `kvs`; `none` stands for bytes of length zero or bytes that fail to
parse (the schema declares the column `jsonb NOT NULL DEFAULT .x7b.x7d`, so in
the database the bytes always parse). -/
structure Notification where
  id : String
  type : String
  title : Option String
  body : Option String
  icon : Option String
  url : Option String
  locale : Option String
  data : Option (List (String × String))
  status : String
  ttlSeconds : Option Int
  priority : String
deriving Repr, DecidableEq

/-- Embedding of queue.DeliverNotificationPayload (internal/queue/tasks.go). -/
structure Payload where
  notificationId : String
  userId : String
  subscriptionId : String
deriving Repr, DecidableEq

/-- Embedding of webpush.DeliveryResult (internal/webpush/sender.go). -/
structure DeliveryResult where
  success : Bool
  httpStatus : Nat
  latencyMs : Nat
  error : String
  shouldPrune : Bool
deriving Repr, DecidableEq

/-- Outcome of the vendor push call made by webpush.SendNotificationWithContext:
either an HTTP response with a status code, or a transport error (network
failure or timeout), in which case the Go client returns a non-nil error. -/
inductive PushResponse where
  | http (status : Nat)
  | transportError (msg : String)
deriving Repr, DecidableEq

/-- Result of Sender.SendNotification together with whether the vendor push
call was reached (the Go function returns early on a missing or inactive
subscription, before any network call). The Go signature returns
(*DeliveryResult, error); that is the Except component. -/
structure SendOutcome where
  result : Except String DeliveryResult
  pushCalled : Bool
deriving Repr

/-- Embedding of Sender.SendNotification (internal/webpush/sender.go lines
42-157). The repository lookups are passed in as their results: `sub?` is the
GetDeviceSubscription result, `notif?` the GetNotification result (`none`
models the error return of the query). `resp` is the outcome of the vendor
push call and `latencyMs` the measured wall-clock latency. The buildPayload
error branch is not modelled: json.Marshal of a map of strings cannot fail. -/
def sendNotification (sub? : Option DeviceSubscription)
    (notif? : Option Notification) (resp : PushResponse)
    (latencyMs : Nat) : SendOutcome :=
  match sub? with
  | none => ⟨Except.error "failed to get subscription", false⟩
  | some sub =>
    if !sub.isActive then
      ⟨Except.ok { success := false, httpStatus := 0, latencyMs := 0,
                   error := "subscription is not active", shouldPrune := false }, false⟩
    else
      match notif? with
      | none => ⟨Except.error "failed to get notification", false⟩
      | some _notif =>
        match resp with
        | PushResponse.transportError msg =>
          ⟨Except.ok { success := false, httpStatus := 0, latencyMs := latencyMs,
                       error := msg, shouldPrune := false }, true⟩
        | PushResponse.http code =>
          let base : DeliveryResult :=
            { success := false, httpStatus := code, latencyMs := latencyMs,
              error := "", shouldPrune := false }
          if 200 ≤ code ∧ code < 300 then
            ⟨Except.ok { base with success := true }, true⟩
          else if code = 410 then
            ⟨Except.ok { base with error := "subscription gone (410)", shouldPrune := true }, true⟩
          else if code = 404 then
            ⟨Except.ok { base with error := "subscription not found (404)", shouldPrune := true }, true⟩
          else if 400 ≤ code ∧ code < 500 then
            ⟨Except.ok { base with error := "client error: " ++ toString code }, true⟩
          else if 500 ≤ code then
            ⟨Except.ok { base with error := "server error: " ++ toString code }, true⟩
          else
            ⟨Except.ok { base with error := "unexpected status: " ++ toString code }, true⟩

/-- Row of notification_attempts as inserted by CreateDeliveryAttempt
(internal/repo/queries/delivery_attempts.sql) plus the columns the insert
leaves to their defaults: `pruned boolean NOT NULL DEFAULT false` in the
migration. -/
structure AttemptRow where
  notificationId : String
  subscriptionId : Option String
  userId : String
  status : String
  httpStatus : Option Nat
  latencyMs : Option Nat
  error : Option String
  retryCount : Nat
  pruned : Bool
deriving Repr, DecidableEq

/-- Embedding of Worker.recordAttempt (internal/queue/worker.go lines 159-197)
composed with the CreateDeliveryAttempt insert: the empty error string becomes
NULL, the subscription id from the payload is always passed, and the pruned
column keeps its database default false (the insert does not name it and the
worker never calls MarkSubscriptionAsPruned). -/
def recordAttempt (p : Payload) (status : String) (httpStatus : Option Nat)
    (latencyMs : Option Nat) (retryCount : Nat) (errorMsg : String) : AttemptRow :=
  { notificationId := p.notificationId
    subscriptionId := some p.subscriptionId
    userId := p.userId
    status := status
    httpStatus := httpStatus
    latencyMs := latencyMs
    error := if errorMsg = "" then none else some errorMsg
    retryCount := retryCount
    pruned := false }

/-- Observable outcome of one invocation of Worker.handleDeliverNotification:
whether the handler returned a non-nil error to asynq (a non-nil return makes
the broker retry the task; nil is success), the attempt rows it inserted,
whether DeactivateDeviceSubscription was called, and whether the vendor push
call was reached. -/
structure WorkerOutcome where
  returnsError : Bool
  attempts : List AttemptRow
  deactivateCalled : Bool
  pushCalled : Bool
deriving Repr, DecidableEq

/-- Embedding of Worker.handleDeliverNotification (internal/queue/worker.go
lines 75-156). `payload?` is the result of json.Unmarshal on the task payload
(`none` models a malformed payload). The local retryCount is the literal 0
assigned at line 92 of the source. -/
def handleDeliverNotification (payload? : Option Payload)
    (sub? : Option DeviceSubscription) (notif? : Option Notification)
    (resp : PushResponse) (latencyMs : Nat) : WorkerOutcome :=
  match payload? with
  | none => ⟨true, [], false, false⟩
  | some p =>
    let retryCount := 0
    let s := sendNotification sub? notif? resp latencyMs
    match s.result with
    | Except.error e =>
      ⟨true, [recordAttempt p "failed" none none retryCount e], false, s.pushCalled⟩
    | Except.ok result =>
      let status := if result.success then "delivered" else "failed"
      let row := recordAttempt p status (some result.httpStatus)
        (some result.latencyMs) retryCount result.error
      ⟨!result.success && !result.shouldPrune, [row], result.shouldPrune, s.pushCalled⟩

/-- Embedding of the DeactivateDeviceSubscription query
(internal/repo/queries/device_subscriptions.sql): sets is_active to false. -/
def deactivateDeviceSubscription (s : DeviceSubscription) : DeviceSubscription :=
  { s with isActive := false }

/-- Successive broker invocations of the same task against a fixed
subscription and notification: one handler run per vendor response in
`resps`, collecting the attempt rows each run inserts. -/
def runTaskInvocations (p : Payload) (sub : DeviceSubscription)
    (notif : Notification) (latencyMs : Nat) (resps : List PushResponse) : List AttemptRow :=
  (resps.map (fun r =>
    (handleDeliverNotification (some p) (some sub) (some notif) r latencyMs).attempts)).flatten

/-- Embedding of the queue selection switch in Client.EnqueueDeliverNotification
(internal/http/dto.go lines 298-306, constants PriorityHigh = "high" and
PriorityLow = "low" from the same file): any other priority string, including
"normal" and "critical", falls to the default branch. -/
def queueForPriority (priority : String) : String :=
  if priority = "high" then "high"
  else if priority = "low" then "low"
  else "default"

/-- Embedding of auth.Sign (src/unnamed/part_004): base64 of the HMAC-SHA256
digest of method, path, body and timestamp concatenated in that order. The
external crypto primitives are parameters: `mac secret msg` is the
HMAC-SHA256 digest (a byte string) and `enc` is base64.StdEncoding encoding. -/
def sign (mac : String → String → String) (enc : String → String)
    (secret method path body ts : String) : String :=
  enc (mac secret (method ++ path ++ body ++ ts))

/-- Embedding of auth.Verify (src/unnamed/part_004): recompute the expected
signature with Sign, base64-decode both the expected and the provided strings
(`dec` is base64.StdEncoding decoding, returning none on a decode error), and
compare the decoded bytes (hmac.Equal, a constant-time byte comparison). -/
def verify (mac : String → String → String) (enc : String → String)
    (dec : String → Option String)
    (secret method path body ts providedSig : String) : Bool :=
  match dec (sign mac enc secret method path body ts), dec providedSig with
  | some exb, some pb => exb == pb
  | _, _ => false

/-- Inbound HTTP request as seen by the HMAC middleware. Go Header.Get
returns the empty string for an absent header, so a missing X-Timestamp or
X-Signature is modelled by the empty string, exactly as the source tests. -/
structure HttpRequest where
  method : String
  path : String
  body : String
  tsHeader : String
  sigHeader : String
deriving Repr, DecidableEq

/-- Observable outcome of the middleware: reject with an HTTP status versus
passing the request to the wrapped handler. -/
inductive MiddlewareResult where
  | reject (status : Nat)
  | pass
deriving Repr, DecidableEq

/-- Embedding of auth.VerifyHMACMiddleware (src/unnamed/part_004). Parameters
beyond the crypto primitives: `parseTime` is time.Parse with the RFC3339
layout, giving the parsed instant in seconds (`none` on a parse error), `now`
is the current clock in seconds, and `maxSkew` the tolerance in seconds. The
Go checks time.Since(pt) > maxSkew and time.Until(pt) > maxSkew, which are
now - pt > maxSkew and pt - now > maxSkew. The body-read-error branch (400)
is not modelled: reading an in-memory body cannot fail. -/
def verifyHMACMiddleware (mac : String → String → String) (enc : String → String)
    (dec : String → Option String) (parseTime : String → Option Int)
    (secret : String) (maxSkew now : Int) (req : HttpRequest) : MiddlewareResult :=
  if req.tsHeader = "" ∨ req.sigHeader = "" then MiddlewareResult.reject 401
  else
    match parseTime req.tsHeader with
    | none => MiddlewareResult.reject 401
    | some pt =>
      if now - pt > maxSkew ∨ pt - now > maxSkew then MiddlewareResult.reject 401
      else if !(verify mac enc dec secret req.method req.path req.body
                  req.tsHeader req.sigHeader) then MiddlewareResult.reject 401
      else MiddlewareResult.pass

/-- Character class of Go unicode.IsSpace restricted to Latin-1 (the set that
strings.TrimSpace strips); all inputs in the claims are ASCII. -/
def goIsSpace (c : Char) : Bool :=
  c = ' ' || c = '\t' || c = '\n' || c = '\x0B' || c = '\x0C' || c = '\r' ||
  c = '\u0085' || c = '\u00A0'

/-- Go test strings.TrimSpace(s) == "": true exactly when every character of
s is whitespace (in particular true for the empty string). -/
def trimSpaceEmpty (s : String) : Bool :=
  s.toList.all goIsSpace

/-- Go len(s) on a string counts UTF-8 bytes. -/
def goLen (s : String) : Nat :=
  s.utf8ByteSize

/-- Go strings.HasPrefix(s, pre), expressed on the character lists (UTF-8 is
prefix-free per character, so byte-prefix and character-prefix coincide). -/
def goStartsWith (s pre : String) : Bool :=
  List.isPrefixOf pre.toList s.toList

/-- Go test for an optional string field exceeding a byte-length bound:
`r.F != nil && len(*r.F) > n`. -/
def optLenGT (o : Option String) (n : Nat) : Bool :=
  match o with
  | some s => goLen s > n
  | none => false

/-- Embedding of http.RegisterSubscriptionRequest (internal/http/dto.go);
Keys.P256dh and Keys.Auth are inlined, the unvalidated metadata field is
dropped. -/
structure RegisterSubscriptionRequest where
  userId : String
  endpoint : String
  p256dh : String
  auth : String
  deviceId : Option String
  userAgent : Option String
  locale : Option String
  timezone : Option String
deriving Repr, DecidableEq

/-- Embedding of RegisterSubscriptionRequest.Validate (internal/http/dto.go
lines 38-67): the first failing check wins and yields its error message;
none is the nil return (request accepted). -/
def validateRegisterSubscription (r : RegisterSubscriptionRequest) : Option String :=
  if trimSpaceEmpty r.userId then some "user_id is required"
  else if goLen r.userId > 255 then some "user_id exceeds 255 characters"
  else if trimSpaceEmpty r.endpoint then some "endpoint is required"
  else if goLen r.endpoint > 500 then some "endpoint exceeds 500 characters"
  else if !(goStartsWith r.endpoint "https://") then some "endpoint must be HTTPS URL"
  else if trimSpaceEmpty r.p256dh then some "keys.p256dh is required"
  else if trimSpaceEmpty r.auth then some "keys.auth is required"
  else if optLenGT r.locale 10 then some "locale exceeds 10 characters"
  else if optLenGT r.timezone 50 then some "timezone exceeds 50 characters"
  else none

/-- Embedding of http.SendNotificationRequest (internal/http/dto.go); the
data field is not validated and is dropped here. -/
structure SendNotificationRequest where
  idempotencyKey : Option String
  type : String
  userIds : List String
  title : Option String
  body : Option String
  icon : Option String
  url : Option String
  locale : Option String
  dedupeKey : Option String
  ttlSeconds : Option Int
  priority : Option String
deriving Repr, DecidableEq

/-- Embedding of the user_ids loop of SendNotificationRequest.Validate
(internal/http/dto.go lines 108-115): first offending entry wins. -/
def checkUserIds : List String → Option String
  | [] => none
  | u :: rest =>
    if trimSpaceEmpty u then some "user_ids entry is empty"
    else if goLen u > 255 then some "user_ids entry exceeds 255 characters"
    else checkUserIds rest

/-- Go test `r.TTLSeconds != nil && (*r.TTLSeconds < 0 || *r.TTLSeconds > 2419200)`. -/
def ttlOutOfRange (o : Option Int) : Bool :=
  match o with
  | some t => decide (t < 0 ∨ t > 2419200)
  | none => false

/-- Go test on the optional priority: present and not a key of the
validPriorities map (low, normal, high, critical). -/
def priorityInvalid (o : Option String) : Bool :=
  match o with
  | some p => !(p == "low" || p == "normal" || p == "high" || p == "critical")
  | none => false

/-- Embedding of SendNotificationRequest.Validate (internal/http/dto.go lines
95-147), checks in source order. -/
def validateSendNotification (r : SendNotificationRequest) : Option String :=
  if trimSpaceEmpty r.type then some "type is required"
  else if goLen r.type > 50 then some "type exceeds 50 characters"
  else if r.userIds.length = 0 then some "user_ids is required and must contain at least one user"
  else if r.userIds.length > 1000 then some "user_ids exceeds maximum of 1000 recipients"
  else
    match checkUserIds r.userIds with
    | some e => some e
    | none =>
      if optLenGT r.title 255 then some "title exceeds 255 characters"
      else if optLenGT r.body 1000 then some "body exceeds 1000 characters"
      else if optLenGT r.icon 500 then some "icon URL exceeds 500 characters"
      else if optLenGT r.url 500 then some "url exceeds 500 characters"
      else if optLenGT r.locale 10 then some "locale exceeds 10 characters"
      else if optLenGT r.idempotencyKey 255 then some "idempotency_key exceeds 255 characters"
      else if optLenGT r.dedupeKey 255 then some "dedupe_key exceeds 255 characters"
      else if ttlOutOfRange r.ttlSeconds then some "ttl_seconds must be between 0 and 2419200 (28 days)"
      else if priorityInvalid r.priority then some "priority must be one of: low, normal, high, critical"
      else none

/-- Value stored under a key of the push payload map built by
Sender.buildPayload: the string fields, or the decoded data object. -/
inductive PayloadValue where
  | str (s : String)
  | obj (kvs : List (String × String))
deriving Repr, DecidableEq

/-- Conditional insertion of an optional notification field into the payload
map, mirroring `if notif.F != nil then payload["f"] = *notif.F`. -/
def optPayloadField (name : String) (v : Option String) : List (String × PayloadValue) :=
  match v with
  | some s => [(name, PayloadValue.str s)]
  | none => []

/-- Embedding of Sender.buildPayload (internal/webpush/sender.go lines
160-192) as the association list of entries of the built map:
notification_id and type always, each optional field exactly when set, and
the data entry exactly when the jsonb bytes are non-empty and parse (the
`some` case of the data model, see Notification.data). -/
def buildPayload (n : Notification) : List (String × PayloadValue) :=
  [("notification_id", PayloadValue.str n.id), ("type", PayloadValue.str n.type)]
  ++ optPayloadField "title" n.title
  ++ optPayloadField "body" n.body
  ++ optPayloadField "icon" n.icon
  ++ optPayloadField "url" n.url
  ++ optPayloadField "locale" n.locale
  ++ (match n.data with
      | some kvs => [("data", PayloadValue.obj kvs)]
      | none => [])

/-- Embedding of the TTL option set up in Sender.SendNotification
(internal/webpush/sender.go lines 90-93): 3600 unless ttl_seconds is set. -/
def effectiveTTL (n : Notification) : Int :=
  match n.ttlSeconds with
  | some t => t
  | none => 3600

/-- Embedding of the CreateRecipient query
(internal/repo/queries/recipients.sql): INSERT .. ON CONFLICT
(notification_id, user_id) DO NOTHING against the notification_recipients
table, modelled as the list of its (notification_id, user_id) rows. -/
def createRecipient (table : List (String × String)) (nid uid : String) :
    List (String × String) :=
  if table.any (fun r => r.1 == nid && r.2 == uid) then table
  else table ++ [(nid, uid)]

/-- Number of rows of the recipients table with the given primary key. -/
def pairCount (table : List (String × String)) (nid uid : String) : Nat :=
  (table.filter (fun r => r.1 == nid && r.2 == uid)).length

/-- Concrete active subscription used for evaluation. -/
def subFix : DeviceSubscription :=
  { id := "sub-1", userId := "u1", endpoint := "https://push.example/e1",
    p256dh := "P", auth := "A", isActive := true }

/-- Concrete inactive subscription used for evaluation. -/
def subInactiveFix : DeviceSubscription :=
  { subFix with isActive := false }

/-- Concrete notification used for evaluation. -/
def notifFix : Notification :=
  { id := "n-1", type := "t", title := some "hi", body := none, icon := none,
    url := none, locale := none, data := some [], status := "pending",
    ttlSeconds := some 3600, priority := "normal" }

/-- Concrete task payload used for evaluation. -/
def payloadFix : Payload :=
  { notificationId := "n-1", userId := "u1", subscriptionId := "sub-1" }

theorem sendNotification_410 (sub : DeviceSubscription) (n : Notification)
    (lat : Nat) (hact : sub.isActive = true) :
    sendNotification (some sub) (some n) (PushResponse.http 410) lat =
      ⟨Except.ok { success := false, httpStatus := 410, latencyMs := lat,
                   error := "subscription gone (410)", shouldPrune := true }, true⟩ := by
  simp [sendNotification, hact]

theorem sendNotification_404 (sub : DeviceSubscription) (n : Notification)
    (lat : Nat) (hact : sub.isActive = true) :
    sendNotification (some sub) (some n) (PushResponse.http 404) lat =
      ⟨Except.ok { success := false, httpStatus := 404, latencyMs := lat,
                   error := "subscription not found (404)", shouldPrune := true }, true⟩ := by
  simp [sendNotification, hact]

theorem sendNotification_other4xx (sub : DeviceSubscription) (n : Notification)
    (code lat : Nat) (hact : sub.isActive = true) (h4 : 400 ≤ code)
    (h5 : code < 500) (hn404 : code ≠ 404) (hn410 : code ≠ 410) :
    sendNotification (some sub) (some n) (PushResponse.http code) lat =
      ⟨Except.ok { success := false, httpStatus := code, latencyMs := lat,
                   error := "client error: " ++ toString code, shouldPrune := false }, true⟩ := by
  simp only [sendNotification, hact, Bool.not_true]
  rw [if_neg (by simp)]
  rw [if_neg (by omega : ¬(200 ≤ code ∧ code < 300)), if_neg hn410, if_neg hn404,
      if_pos ⟨h4, h5⟩]

/-- C1 counterexample: on a delivery task whose push call returns HTTP 410
against an active subscription, the worker does deactivate the subscription
and return success, but the recorded attempt row has pruned = false: the
insert never names the pruned column and the worker never calls
MarkSubscriptionAsPruned, so the claimed pruned = true fails. -/
theorem c1_counterexample :
    (handleDeliverNotification (some payloadFix) (some subFix) (some notifFix)
      (PushResponse.http 410) 5).deactivateCalled = true ∧
    (handleDeliverNotification (some payloadFix) (some subFix) (some notifFix)
      (PushResponse.http 410) 5).returnsError = false ∧
    (handleDeliverNotification (some payloadFix) (some subFix) (some notifFix)
      (PushResponse.http 410) 5).attempts.map (fun a => (a.status, a.httpStatus, a.pruned))
      = [("failed", some 410, false)] := by
  refine ⟨rfl, rfl, ?_⟩
  decide

/-- C1 (amended): for every delivery task whose push call returns HTTP 410 or
HTTP 404 against an active subscription, the worker calls subscription
deactivation (which sets is_active to false), records one delivery attempt
with status failed carrying that http_status whose pruned flag keeps the
database default false, and returns success to the broker so the task is not
retried. -/
theorem c1_terminal_verdict (p : Payload) (sub : DeviceSubscription)
    (n : Notification) (code lat : Nat) (hact : sub.isActive = true)
    (hcode : code = 410 ∨ code = 404) :
    (handleDeliverNotification (some p) (some sub) (some n)
      (PushResponse.http code) lat).deactivateCalled = true ∧
    (deactivateDeviceSubscription sub).isActive = false ∧
    (handleDeliverNotification (some p) (some sub) (some n)
      (PushResponse.http code) lat).returnsError = false ∧
    (handleDeliverNotification (some p) (some sub) (some n)
      (PushResponse.http code) lat).attempts.map
        (fun a => (a.status, a.httpStatus, a.retryCount, a.pruned))
      = [("failed", some code, 0, false)] := by
  rcases hcode with h | h <;> subst h
  · rw [show (handleDeliverNotification (some p) (some sub) (some n)
        (PushResponse.http 410) lat) =
        ⟨false, [recordAttempt p "failed" (some 410) (some lat) 0 "subscription gone (410)"],
         true, true⟩ from by
      simp [handleDeliverNotification, sendNotification_410 sub n lat hact]]
    exact ⟨rfl, rfl, rfl, by simp [recordAttempt]⟩
  · rw [show (handleDeliverNotification (some p) (some sub) (some n)
        (PushResponse.http 404) lat) =
        ⟨false, [recordAttempt p "failed" (some 404) (some lat) 0 "subscription not found (404)"],
         true, true⟩ from by
      simp [handleDeliverNotification, sendNotification_404 sub n lat hact]]
    exact ⟨rfl, rfl, rfl, by simp [recordAttempt]⟩

/-- C1 witness: the amended statement evaluated on a concrete 404 task. -/
theorem c1_witness :
    subFix.isActive = true ∧ ((404 : Nat) = 410 ∨ (404 : Nat) = 404) ∧
    ((handleDeliverNotification (some payloadFix) (some subFix) (some notifFix)
      (PushResponse.http 404) 7).deactivateCalled = true ∧
     (deactivateDeviceSubscription subFix).isActive = false ∧
     (handleDeliverNotification (some payloadFix) (some subFix) (some notifFix)
      (PushResponse.http 404) 7).returnsError = false ∧
     (handleDeliverNotification (some payloadFix) (some subFix) (some notifFix)
      (PushResponse.http 404) 7).attempts.map
        (fun a => (a.status, a.httpStatus, a.retryCount, a.pruned))
      = [("failed", some 404, 0, false)]) :=
  ⟨rfl, Or.inr rfl,
    c1_terminal_verdict payloadFix subFix notifFix 404 7 rfl (Or.inr rfl)⟩

/-- C2 counterexample: on a push result of HTTP 400 (a 4xx other than 404 and
410) the worker returns a non-nil error to the broker, so the task is
retried, contradicting the claimed success return; the attempt row with
http_status 400 is recorded and the subscription is untouched. -/
theorem c2_counterexample :
    (handleDeliverNotification (some payloadFix) (some subFix) (some notifFix)
      (PushResponse.http 400) 5).returnsError = true ∧
    (handleDeliverNotification (some payloadFix) (some subFix) (some notifFix)
      (PushResponse.http 400) 5).deactivateCalled = false ∧
    (handleDeliverNotification (some payloadFix) (some subFix) (some notifFix)
      (PushResponse.http 400) 5).attempts.map (fun a => (a.status, a.httpStatus))
      = [("failed", some 400)] := by
  refine ⟨rfl, rfl, ?_⟩
  decide

/-- C2 (amended): for every delivery task whose push call returns an HTTP 4xx
status other than 404 and 410 against an active subscription, the worker
returns a non-nil error to the broker (so the broker retries the task, up to
its max_retries), one attempt row with that http_status and status failed is
recorded, and the subscription is not deactivated. -/
theorem c2_other_4xx (p : Payload) (sub : DeviceSubscription) (n : Notification)
    (code lat : Nat) (hact : sub.isActive = true) (h4 : 400 ≤ code)
    (h5 : code < 500) (hn404 : code ≠ 404) (hn410 : code ≠ 410) :
    (handleDeliverNotification (some p) (some sub) (some n)
      (PushResponse.http code) lat).returnsError = true ∧
    (handleDeliverNotification (some p) (some sub) (some n)
      (PushResponse.http code) lat).deactivateCalled = false ∧
    (handleDeliverNotification (some p) (some sub) (some n)
      (PushResponse.http code) lat).attempts.map
        (fun a => (a.status, a.httpStatus, a.pruned))
      = [("failed", some code, false)] := by
  rw [show (handleDeliverNotification (some p) (some sub) (some n)
      (PushResponse.http code) lat) =
      ⟨true, [recordAttempt p "failed" (some code) (some lat) 0
        ("client error: " ++ toString code)], false, true⟩ from by
    simp [handleDeliverNotification,
      sendNotification_other4xx sub n code lat hact h4 h5 hn404 hn410]]
  exact ⟨rfl, rfl, by simp [recordAttempt]⟩

/-- C2 witness: the amended statement evaluated at HTTP 429. -/
theorem c2_witness :
    subFix.isActive = true ∧ (400 : Nat) ≤ 429 ∧ (429 : Nat) < 500 ∧
    (429 : Nat) ≠ 404 ∧ (429 : Nat) ≠ 410 ∧
    ((handleDeliverNotification (some payloadFix) (some subFix) (some notifFix)
      (PushResponse.http 429) 9).returnsError = true ∧
     (handleDeliverNotification (some payloadFix) (some subFix) (some notifFix)
      (PushResponse.http 429) 9).deactivateCalled = false ∧
     (handleDeliverNotification (some payloadFix) (some subFix) (some notifFix)
      (PushResponse.http 429) 9).attempts.map
        (fun a => (a.status, a.httpStatus, a.pruned))
      = [("failed", some 429, false)]) :=
  ⟨rfl, by decide, by decide, by decide, by decide,
    c2_other_4xx payloadFix subFix notifFix 429 9 rfl (by decide) (by decide)
      (by decide) (by decide)⟩

/-- C3 counterexample: on a task whose subscription is inactive, the worker
records an attempt with status failed, not skipped or pruned, and returns a
non-nil error to the broker, so the task is retried rather than acknowledged
as success (no push call is made, which is the only part of the claim that
holds). -/
theorem c3_counterexample :
    (handleDeliverNotification (some payloadFix) (some subInactiveFix)
      (some notifFix) (PushResponse.http 201) 5).attempts.map (fun a => a.status)
      = ["failed"] ∧
    (handleDeliverNotification (some payloadFix) (some subInactiveFix)
      (some notifFix) (PushResponse.http 201) 5).returnsError = true ∧
    (handleDeliverNotification (some payloadFix) (some subInactiveFix)
      (some notifFix) (PushResponse.http 201) 5).pushCalled = false := by
  refine ⟨?_, rfl, rfl⟩
  decide

/-- C3 (amended): for every delivery task whose subscription is missing, the
worker records an attempt with status failed (with the lookup error text and
no http_status), makes no push network call, and returns a non-nil error to
the broker so the task is retried; for every task whose subscription has
is_active = false, the worker records an attempt with status failed (error
text "subscription is not active", http_status 0), makes no push network
call, and likewise returns a non-nil error so the task is retried. -/
theorem c3_missing_or_inactive (p : Payload) (sub : DeviceSubscription)
    (notif? notif2? : Option Notification) (resp resp2 : PushResponse)
    (lat lat2 : Nat) (hinact : sub.isActive = false) :
    handleDeliverNotification (some p) none notif? resp lat =
      ⟨true, [recordAttempt p "failed" none none 0 "failed to get subscription"],
       false, false⟩ ∧
    handleDeliverNotification (some p) (some sub) notif2? resp2 lat2 =
      ⟨true, [recordAttempt p "failed" (some 0) (some 0) 0 "subscription is not active"],
       false, false⟩ := by
  constructor
  · rfl
  · simp [handleDeliverNotification, sendNotification, hinact, recordAttempt]

/-- C3 witness: the amended statement evaluated on concrete tasks. -/
theorem c3_witness :
    subInactiveFix.isActive = false ∧
    (handleDeliverNotification (some payloadFix) none (some notifFix)
      (PushResponse.http 201) 5 =
      ⟨true, [recordAttempt payloadFix "failed" none none 0 "failed to get subscription"],
       false, false⟩ ∧
     handleDeliverNotification (some payloadFix) (some subInactiveFix) (some notifFix)
      (PushResponse.http 201) 5 =
      ⟨true, [recordAttempt payloadFix "failed" (some 0) (some 0) 0 "subscription is not active"],
       false, false⟩) :=
  ⟨rfl, c3_missing_or_inactive payloadFix subInactiveFix (some notifFix)
    (some notifFix) (PushResponse.http 201) (PushResponse.http 201) 5 5 rfl⟩

/-- C4 evaluation at the failing input: two broker invocations of the same
task that both hit HTTP 503 produce two attempt rows that both carry
retry_count 0 (the worker assigns the literal 0), although the second
invocation has one prior failed attempt and the claim requires its row to
show retry_count 1 and the sequence to be strictly increasing. -/
theorem c4_retry_count_stuck_at_zero :
    (runTaskInvocations payloadFix subFix notifFix 5
      [PushResponse.http 503, PushResponse.http 503]).map
        (fun a => (a.status, a.retryCount))
      = [("failed", 0), ("failed", 0)] := by
  decide

/-- C5 counterexample: the queue selection switch has no case for "critical",
so a notification of priority critical is enqueued on queue "default", not on
queue "high" as claimed. -/
theorem c5_counterexample :
    queueForPriority "critical" = "default" ∧ queueForPriority "critical" ≠ "high" := by
  decide

/-- C5 (amended): priority "high" goes to queue "high" and "low" to queue
"low", while "normal" and "critical" both fall to the default branch and go
to queue "default". -/
theorem c5_queue_selection :
    queueForPriority "high" = "high" ∧ queueForPriority "low" = "low" ∧
    queueForPriority "normal" = "default" ∧ queueForPriority "critical" = "default" := by
  decide

/-- C6 counterexample: on a malformed task payload the worker records no
attempt at all and returns a non-nil error to the broker, so the task is
retried; the claim requires a failed attempt row and a success return. -/
theorem c6_counterexample :
    handleDeliverNotification none (some subFix) (some notifFix)
      (PushResponse.http 201) 5 = ⟨true, [], false, false⟩ := rfl

/-- C6 (amended): for every task whose payload fails to parse, the worker
returns a non-nil error to the broker (so the broker retries the task up to
its max_retries), records no attempt row, and makes no push call. -/
theorem c6_malformed_payload (sub? : Option DeviceSubscription)
    (notif? : Option Notification) (resp : PushResponse) (lat : Nat) :
    handleDeliverNotification none sub? notif? resp lat = ⟨true, [], false, false⟩ :=
  rfl

/-- C7: with the router skew of 5 minutes (300 seconds) and any base64
pair satisfying the decode-of-encode roundtrip, the middleware rejects with
401 when X-Timestamp or X-Signature is missing, when the timestamp does not
parse, when the parsed timestamp is more than 300 seconds from now in either
direction, or when the provided signature does not decode to the HMAC digest
of METHOD, PATH, BODY and TIMESTAMP concatenated; and it passes the request
to the handler when the headers are present, the timestamp parses within the
skew, and the signature equals the base64 encoding of that digest. -/
theorem c7_hmac_auth (mac : String → String → String) (enc : String → String)
    (dec : String → Option String) (parseTime : String → Option Int)
    (secret : String) (now : Int) (req : HttpRequest)
    (hdec : ∀ x, dec (enc x) = some x) :
    (req.tsHeader = "" ∨ req.sigHeader = "" →
      verifyHMACMiddleware mac enc dec parseTime secret 300 now req =
        MiddlewareResult.reject 401) ∧
    (parseTime req.tsHeader = none →
      verifyHMACMiddleware mac enc dec parseTime secret 300 now req =
        MiddlewareResult.reject 401) ∧
    (∀ pt, parseTime req.tsHeader = some pt → (now - pt > 300 ∨ pt - now > 300) →
      verifyHMACMiddleware mac enc dec parseTime secret 300 now req =
        MiddlewareResult.reject 401) ∧
    (dec req.sigHeader ≠
        some (mac secret (req.method ++ req.path ++ req.body ++ req.tsHeader)) →
      verifyHMACMiddleware mac enc dec parseTime secret 300 now req =
        MiddlewareResult.reject 401) ∧
    (∀ pt, req.tsHeader ≠ "" → req.sigHeader ≠ "" →
      req.sigHeader = sign mac enc secret req.method req.path req.body req.tsHeader →
      parseTime req.tsHeader = some pt → now - pt ≤ 300 → pt - now ≤ 300 →
      verifyHMACMiddleware mac enc dec parseTime secret 300 now req =
        MiddlewareResult.pass) := by
  refine ⟨?_, ?_, ?_, ?_, ?_⟩
  · intro h
    rw [verifyHMACMiddleware, if_pos h]
  · intro h
    rw [verifyHMACMiddleware]
    split
    · rfl
    · rw [h]
  · intro pt hpt hskew
    rw [verifyHMACMiddleware]
    split
    · rfl
    · rw [hpt]
      simp only [if_pos hskew]
  · intro hbad
    rw [verifyHMACMiddleware]
    split
    · rfl
    · have hv : verify mac enc dec secret req.method req.path req.body
          req.tsHeader req.sigHeader = false := by
        rw [verify, sign, hdec]
        cases hs : dec req.sigHeader with
        | none => rfl
        | some pb =>
          have hne : pb ≠ mac secret (req.method ++ req.path ++ req.body ++ req.tsHeader) := by
            intro he
            exact hbad (by rw [hs, he])
          exact beq_eq_false_iff_ne.mpr fun h => hne h.symm
      cases hp : parseTime req.tsHeader with
      | none => rfl
      | some pt => simp [hv]
  · intro pt hts hsig hsigeq hpt h1 h2
    have hv : verify mac enc dec secret req.method req.path req.body
        req.tsHeader req.sigHeader = true := by
      rw [verify, sign, hdec, hsigeq, sign, hdec]
      simp
    have hns : ¬(now - pt > 300 ∨ pt - now > 300) := by omega
    simp [verifyHMACMiddleware, hpt, hts, hsig, hns, hv]

/-- C7 witness: the acceptance clause evaluated with a concrete toy mac and
identity base64 pair on a correctly signed request, together with the
discharged hypotheses. -/
theorem c7_witness :
    (∀ x : String, (fun y : String => some y) ((fun y : String => y) x) = some x) ∧
    verifyHMACMiddleware (fun s m => s ++ m) (fun y : String => y)
      (fun y : String => some y) (fun s => if s = "T" then some (0 : Int) else none)
      "k" 300 0 { method := "P", path := "/", body := "B", tsHeader := "T",
                  sigHeader := "kP/BT" } = MiddlewareResult.pass :=
  ⟨fun _ => rfl,
    (c7_hmac_auth (fun s m => s ++ m) (fun y : String => y)
      (fun y : String => some y) (fun s => if s = "T" then some (0 : Int) else none)
      "k" 0 { method := "P", path := "/", body := "B", tsHeader := "T",
              sigHeader := "kP/BT" } (fun _ => rfl)).2.2.2.2 0
      (by decide) (by decide) (by decide) (by decide) (by decide) (by decide)⟩

theorem if_some_eq_none {c : Prop} [Decidable c] {e : String} {rest : Option String} :
    (if c then some e else rest) = none ↔ ¬c ∧ rest = none := by
  split <;> simp [*]

theorem checkUserIds_eq_none (l : List String) :
    checkUserIds l = none ↔ ∀ u ∈ l, trimSpaceEmpty u = false ∧ goLen u ≤ 255 := by
  induction l with
  | nil => simp [checkUserIds]
  | cons u rest ih =>
    simp [checkUserIds, if_some_eq_none, ih, Bool.not_eq_true, Nat.not_lt]
    tauto

theorem optLenGT_eq_false_iff (o : Option String) (n : Nat) :
    optLenGT o n = false ↔ ∀ x, o = some x → goLen x ≤ n := by
  cases o <;> simp [optLenGT, Nat.not_lt]

theorem ttlOutOfRange_eq_false_iff (o : Option Int) :
    ttlOutOfRange o = false ↔ ∀ t, o = some t → 0 ≤ t ∧ t ≤ 2419200 := by
  cases o <;> simp [ttlOutOfRange]

theorem priorityInvalid_eq_false_iff (o : Option String) :
    priorityInvalid o = false ↔
      ∀ p, o = some p → p = "low" ∨ p = "normal" ∨ p = "high" ∨ p = "critical" := by
  cases o
  · simp [priorityInvalid]
  · simp [priorityInvalid]
    tauto

theorem validateSend_eq_none_iff (r : SendNotificationRequest) :
    validateSendNotification r = none ↔
      (trimSpaceEmpty r.type = false ∧ goLen r.type ≤ 50 ∧
       r.userIds.length ≠ 0 ∧ r.userIds.length ≤ 1000 ∧
       checkUserIds r.userIds = none ∧
       optLenGT r.title 255 = false ∧ optLenGT r.body 1000 = false ∧
       optLenGT r.icon 500 = false ∧ optLenGT r.url 500 = false ∧
       optLenGT r.locale 10 = false ∧ optLenGT r.idempotencyKey 255 = false ∧
       optLenGT r.dedupeKey 255 = false ∧ ttlOutOfRange r.ttlSeconds = false ∧
       priorityInvalid r.priority = false) := by
  cases hu : checkUserIds r.userIds <;>
    simp [validateSendNotification, hu, if_some_eq_none, Bool.not_eq_true, Nat.not_lt]

theorem validateRegister_eq_none_iff (s : RegisterSubscriptionRequest) :
    validateRegisterSubscription s = none ↔
      (trimSpaceEmpty s.userId = false ∧ goLen s.userId ≤ 255 ∧
       trimSpaceEmpty s.endpoint = false ∧ goLen s.endpoint ≤ 500 ∧
       goStartsWith s.endpoint "https://" = true ∧
       trimSpaceEmpty s.p256dh = false ∧ trimSpaceEmpty s.auth = false ∧
       optLenGT s.locale 10 = false ∧ optLenGT s.timezone 50 = false) := by
  simp [validateRegisterSubscription, if_some_eq_none, Bool.not_eq_true, Nat.not_lt]

/-- Concrete send request whose only listed-bound tension is a blank (all
whitespace, hence non-empty) user id entry. -/
def sendReqBlankUser : SendNotificationRequest :=
  { idempotencyKey := none, type := "t", userIds := [" "], title := none,
    body := none, icon := none, url := none, locale := none, dedupeKey := none,
    ttlSeconds := none, priority := none }

/-- C8 counterexample: the request with user_ids = [" "] satisfies every
documented bound of the claim (one entry, non-empty, one byte long, no
ttl_seconds, no priority), yet validation rejects it, because the code tests
strings.TrimSpace of each entry against the empty string: non-empty but
blank entries are off the accepted set. -/
theorem c8_counterexample :
    (sendReqBlankUser.userIds.length = 1 ∧
     (∀ u ∈ sendReqBlankUser.userIds, u ≠ "" ∧ goLen u ≤ 255) ∧
     sendReqBlankUser.ttlSeconds = none ∧ sendReqBlankUser.priority = none) ∧
    validateSendNotification sendReqBlankUser ≠ none := by
  refine ⟨by decide, ?_⟩
  decide

/-- C8 (amended): validation accepts exactly the documented bounds with
"non-empty" strengthened to "non-blank" (whitespace-only strings rejected)
and lengths counted in bytes: send-notification passes iff type is non-blank
and at most 50 bytes, user_ids has between 1 and 1000 entries each non-blank
and at most 255 bytes, every present optional text field is within its byte
bound, ttl_seconds when present lies between 0 and 2419200 inclusive, and
priority when present is one of low, normal, high, critical;
register-subscription passes iff user_id is non-blank and at most 255 bytes,
the endpoint is non-blank, at most 500 bytes and starts with "https://",
both keys are non-blank, and locale and timezone respect their byte bounds. -/
theorem c8_validation_bounds (r : SendNotificationRequest)
    (s : RegisterSubscriptionRequest) :
    (validateSendNotification r = none ↔
      (trimSpaceEmpty r.type = false ∧ goLen r.type ≤ 50 ∧
       1 ≤ r.userIds.length ∧ r.userIds.length ≤ 1000 ∧
       (∀ u ∈ r.userIds, trimSpaceEmpty u = false ∧ goLen u ≤ 255) ∧
       (∀ x, r.title = some x → goLen x ≤ 255) ∧
       (∀ x, r.body = some x → goLen x ≤ 1000) ∧
       (∀ x, r.icon = some x → goLen x ≤ 500) ∧
       (∀ x, r.url = some x → goLen x ≤ 500) ∧
       (∀ x, r.locale = some x → goLen x ≤ 10) ∧
       (∀ x, r.idempotencyKey = some x → goLen x ≤ 255) ∧
       (∀ x, r.dedupeKey = some x → goLen x ≤ 255) ∧
       (∀ t, r.ttlSeconds = some t → 0 ≤ t ∧ t ≤ 2419200) ∧
       (∀ p, r.priority = some p →
         p = "low" ∨ p = "normal" ∨ p = "high" ∨ p = "critical"))) ∧
    (validateRegisterSubscription s = none ↔
      (trimSpaceEmpty s.userId = false ∧ goLen s.userId ≤ 255 ∧
       trimSpaceEmpty s.endpoint = false ∧ goLen s.endpoint ≤ 500 ∧
       goStartsWith s.endpoint "https://" = true ∧
       trimSpaceEmpty s.p256dh = false ∧ trimSpaceEmpty s.auth = false ∧
       (∀ x, s.locale = some x → goLen x ≤ 10) ∧
       (∀ x, s.timezone = some x → goLen x ≤ 50))) := by
  constructor
  · rw [validateSend_eq_none_iff]
    simp only [checkUserIds_eq_none, optLenGT_eq_false_iff,
      ttlOutOfRange_eq_false_iff, priorityInvalid_eq_false_iff,
      Nat.one_le_iff_ne_zero]
  · rw [validateRegister_eq_none_iff]
    simp only [optLenGT_eq_false_iff]

/-- Concrete on-bound requests: ttl at the upper bound, priority critical,
endpoint with the https prefix. -/
def sendReqOk : SendNotificationRequest :=
  { idempotencyKey := none, type := "t", userIds := ["u1"], title := some "hi",
    body := none, icon := none, url := none, locale := none, dedupeKey := none,
    ttlSeconds := some 2419200, priority := some "critical" }

/-- Concrete valid register request. -/
def regReqOk : RegisterSubscriptionRequest :=
  { userId := "u1", endpoint := "https://push.example/e1", p256dh := "P",
    auth := "A", deviceId := none, userAgent := none, locale := none,
    timezone := none }

/-- C8 witness: both characterizations evaluated on concrete on-bound
requests, accepted in both directions of the equivalence. -/
theorem c8_witness :
    validateSendNotification sendReqOk = none ∧
    validateRegisterSubscription regReqOk = none :=
  ⟨(c8_validation_bounds sendReqOk regReqOk).1.mpr (by decide),
   (c8_validation_bounds sendReqOk regReqOk).2.mpr (by decide)⟩

theorem mem_optPayloadField {a b : String} {v : PayloadValue} {o : Option String} :
    (a, v) ∈ optPayloadField b o ↔ a = b ∧ ∃ s, o = some s ∧ v = PayloadValue.str s := by
  cases o <;> simp [optPayloadField]

/-- C9: for every notification, the built push payload contains
notification_id and type; it contains each of title, body, icon, url and
locale exactly when that field is set on the notification; whenever the data
bytes parse to an object it contains that object under "data"; and the TTL
passed to the push options is ttl_seconds with fallback 3600 when unset. -/
theorem c9_push_payload (n : Notification) :
    ("notification_id", PayloadValue.str n.id) ∈ buildPayload n ∧
    ("type", PayloadValue.str n.type) ∈ buildPayload n ∧
    (∀ t, ("title", PayloadValue.str t) ∈ buildPayload n ↔ n.title = some t) ∧
    (∀ t, ("body", PayloadValue.str t) ∈ buildPayload n ↔ n.body = some t) ∧
    (∀ t, ("icon", PayloadValue.str t) ∈ buildPayload n ↔ n.icon = some t) ∧
    (∀ t, ("url", PayloadValue.str t) ∈ buildPayload n ↔ n.url = some t) ∧
    (∀ t, ("locale", PayloadValue.str t) ∈ buildPayload n ↔ n.locale = some t) ∧
    (∀ kvs, n.data = some kvs → ("data", PayloadValue.obj kvs) ∈ buildPayload n) ∧
    effectiveTTL n = n.ttlSeconds.getD 3600 := by
  refine ⟨?_, ?_, ?_, ?_, ?_, ?_, ?_, ?_, ?_⟩
  · simp [buildPayload]
  · simp [buildPayload]
  · intro t
    cases hd : n.data <;>
      simp +decide [buildPayload, mem_optPayloadField, hd]
  · intro t
    cases hd : n.data <;>
      simp +decide [buildPayload, mem_optPayloadField, hd]
  · intro t
    cases hd : n.data <;>
      simp +decide [buildPayload, mem_optPayloadField, hd]
  · intro t
    cases hd : n.data <;>
      simp +decide [buildPayload, mem_optPayloadField, hd]
  · intro t
    cases hd : n.data <;>
      simp +decide [buildPayload, mem_optPayloadField, hd]
  · intro kvs hd
    simp [buildPayload, hd]
  · cases h : n.ttlSeconds <;> simp [effectiveTTL, h]

/-- Concrete notification with every optional field set. -/
def notifFull : Notification :=
  { id := "n-2", type := "t2", title := some "T", body := some "B",
    icon := some "I", url := some "U", locale := some "L",
    data := some [("k", "v")], status := "pending", ttlSeconds := none,
    priority := "high" }

/-- C9 witness: the payload of a fully populated notification contains its
title and data entries, and the TTL of a notification without ttl_seconds
falls back to 3600. -/
theorem c9_witness :
    ("title", PayloadValue.str "T") ∈ buildPayload notifFull ∧
    ("data", PayloadValue.obj [("k", "v")]) ∈ buildPayload notifFull ∧
    effectiveTTL notifFull = 3600 :=
  ⟨((c9_push_payload notifFull).2.2.1 "T").mpr rfl,
   (c9_push_payload notifFull).2.2.2.2.2.2.2.1 [("k", "v")] rfl,
   (c9_push_payload notifFull).2.2.2.2.2.2.2.2⟩

/-- C10: inserting a recipient row via CreateRecipient is idempotent, and it
preserves the primary-key invariant that at most one row exists per
(notification_id, user_id) pair: running the insert a second time with the
same pair leaves the table unchanged, and if the table had at most one row
per pair before, it still does after. -/
theorem c10_create_recipient_idempotent (t : List (String × String))
    (nid uid : String) (hpk : ∀ n u, pairCount t n u ≤ 1) :
    createRecipient (createRecipient t nid uid) nid uid = createRecipient t nid uid ∧
    ∀ n u, pairCount (createRecipient t nid uid) n u ≤ 1 := by
  cases ha : t.any (fun r => r.1 == nid && r.2 == uid) with
  | true =>
    have he : createRecipient t nid uid = t := by simp [createRecipient, ha]
    rw [he]
    exact ⟨he, hpk⟩
  | false =>
    have hnone : ∀ r ∈ t, ¬(r.1 = nid ∧ r.2 = uid) := by
      intro r hr
      have := List.any_eq_false.mp ha r hr
      simpa using this
    have he : createRecipient t nid uid = t ++ [(nid, uid)] := by
      simp [createRecipient, ha]
    rw [he]
    constructor
    · have hany : ((t ++ [(nid, uid)]).any (fun r => r.1 == nid && r.2 == uid)) = true := by
        simp
      simp [createRecipient, hany]
    · intro n u
      rw [pairCount, List.filter_append, List.length_append]
      by_cases hx : (nid = n ∧ uid = u)
      · rcases hx with ⟨hx1, hx2⟩
        subst hx1; subst hx2
        have h0 : (List.filter (fun r => r.1 == nid && r.2 == uid) t) = [] := by
          rw [List.filter_eq_nil_iff]
          intro r hr
          simpa using hnone r hr
        simp [h0]
      · have h1 : (List.filter (fun r => r.1 == n && r.2 == u) [(nid, uid)]) = [] := by
          simp only [List.filter, Bool.and_eq_true, beq_iff_eq]
          split
          · rename_i hcond
            exact absurd (by simpa using hcond) hx
          · rfl
        rw [h1]
        simpa [pairCount] using hpk n u

/-- C10 witness: the statement evaluated on the empty table, whose
primary-key hypothesis holds trivially. -/
theorem c10_witness :
    createRecipient (createRecipient [] "n1" "u1") "n1" "u1" =
      createRecipient [] "n1" "u1" ∧
    ∀ n u, pairCount (createRecipient [] "n1" "u1") n u ≤ 1 :=
  c10_create_recipient_idempotent [] "n1" "u1" (fun _ _ => Nat.zero_le 1)

end NotifService
